import Mathlib

/-!
Verification of the receiver control loop of the MBMS modem process
(`src/main.cpp` of rt-mbms-mw).

The development is a shallow embedding of the program.  External
collaborators (SdrReader, Phy, Rrc, the frame processors, the measurement
writer) are modelled as oracles: their per-call results are inputs to the
step functions, and every call the control loop makes to them is recorded
in an event trace.  Machine integers are modelled as `Nat` with an
explicit `% 2 ^ 32` wherever the C `unsigned`/`uint32_t` arithmetic can
wrap.
-/

namespace MbmsModem

/-- The three receiver states of the control-loop state machine
(the `state_t` values `searching`, `syncing`, `processing`). -/
inductive RxState where
  | searching
  | syncing
  | processing
deriving DecidableEq, Repr

/-- Observable actions the control loop performs on its collaborators,
plus every read of the shared `restart` flag.  The `sdrTune` event keeps
the three arguments the claims talk about (frequency, sample rate, filter
bandwidth); the gain / antenna / AGC arguments are constants threaded
through unchanged by the loop and are not recorded. -/
inductive Event where
  | readRestart (v : Bool)
  | sdrStop
  | sdrStart
  | sdrClearBuffer
  | sdrTune (freq srate bw : Nat)
  | disableSampleWriting
  | enableSampleWriting
  | cellSearch (found : Bool)
  | syncAttempt (ok : Bool)
  | getNextFrame (ok : Bool)
  | pushCas (tti : Nat)
  | bwCheck (reported tracked : Nat)
  | setNofMbsfnPrb (n : Nat)
  | setCellPhy
  | setCellCas
  | unlockAllWorkers
  | rrcReset
  | phyReset
  | sleep (secs : Nat)
  | selectWorker (idx : Nat)
  | configureWorker (idx : Nat)
  | pushMbsfn (idx tti : Nat)
  | unlockWorker (idx : Nat)
  | snapshot
deriving DecidableEq, Repr

/-- `UINT_MAX` on the target platform (32-bit `unsigned`). -/
def UINT_MAX : Nat := 2 ^ 32 - 1

/-- Low-pass filter bandwidth computed from a PRB count:
the source computes `(nof_prb * 200000) * 1.2` in `double` and stores it
into the `uint32_t` global `bandwidth`.  For every PRB count in range the
double computation yields exactly `nof_prb * 240000`, which this exact
rational form reproduces. -/
def bwFromPrb (prb : Nat) : Nat := prb * 200000 * 12 / 10

/-- Configuration-derived constants the loop reads but never writes:
`search_sample_rate`, `thread_cnt`, the telemetry interval already
multiplied by 1000 (`measurement_interval *= 1000`), the external
`srsran_sampling_freq_hz` table (an oracle), and the sample-file mode
derived from the command line (`arguments.sample_file && arguments.file_bw`). -/
structure LoopConfig where
  search_sample_rate : Nat
  thread_cnt : Nat
  measurement_interval : Nat
  srate_of_prb : Nat → Nat
  sample_file_mode : Bool
  file_bw : Nat

/-- The mutable variables of the control loop: the state-machine state,
the TTI and telemetry tick counters, the MBSFN dispatch cursor `mb_idx`,
and the globals `sample_rate`, `frequency`, `bandwidth`, `mbsfn_nof_prb`,
`cas_nof_prb` and the shared `restart` flag (its value at the current
observation point; the RESTful handler may rewrite it between steps). -/
structure LoopState where
  state : RxState
  tti : Nat
  tick : Nat
  mb_idx : Nat
  sample_rate : Nat
  frequency : Nat
  bandwidth : Nat
  mbsfn_nof_prb : Nat
  cas_nof_prb : Nat
  restart : Bool
deriving DecidableEq, Repr

/-- Oracle results of the external calls made during one subframe
iteration of the processing loop: the subframe classification
`phy.is_cas_subframe(tti)`, the `phy.get_next_frame` result, the
currently reported MBSFN width `phy.nof_mbsfn_prb()`, the upper-layer
flags `phy.mcch_configured()` / `phy.is_mbsfn_subframe(tti)`, and whether
the selected worker already has its MBSFN configuration applied. -/
structure SubframeEnv where
  is_cas : Bool
  frame_ok : Bool
  nof_mbsfn_prb : Nat
  mcch_configured : Bool
  is_mbsfn : Bool
  worker_configured : Bool
deriving DecidableEq, Repr

/-- Oracle results of one searching iteration: the `phy.cell_search()`
outcome and the discovered carrier width `phy.nr_prb()`. -/
structure SearchEnv where
  cell_found : Bool
  nr_prb : Nat
deriving DecidableEq, Repr

/-- One subframe iteration of the processing loop
(the body of `while (state == processing)`, main.cpp lines 567-719),
returning the successor state and the trace of external actions. -/
def processSubframe (cfg : LoopConfig) (env : SubframeEnv) (s : LoopState) :
    LoopState × List Event :=
  let tti := (s.tti + 1) % 10240
  let r :=
    if env.is_cas then
      if !s.restart && env.frame_ok then
        let checked := [Event.readRestart s.restart, Event.getNextFrame true,
          Event.pushCas tti, Event.bwCheck env.nof_mbsfn_prb s.mbsfn_nof_prb]
        if env.nof_mbsfn_prb ≠ s.mbsfn_nof_prb then
          -- mid-session PRB extension: retune for the wider MBSFN portion
          -- and go back to syncing
          let prb := env.nof_mbsfn_prb
          let new_srate := cfg.srate_of_prb prb
          let bw := bwFromPrb prb
          ({ s with tti := tti, mbsfn_nof_prb := prb, bandwidth := bw, state := RxState.syncing },
            checked ++ [Event.sdrStop, Event.sdrTune s.frequency new_srate bw,
              Event.setCellPhy, Event.setCellCas, Event.sdrStart])
        else
          ({ s with tti := tti }, checked)
      else
        -- failed to receive data (or a restart is pending): recover to searching
        let pre := if s.restart then [Event.readRestart true]
          else [Event.readRestart false, Event.getNextFrame false]
        ({ s with tti := tti, sample_rate := cfg.search_sample_rate, state := RxState.searching },
          pre ++ [Event.sdrStop,
            Event.sdrTune s.frequency cfg.search_sample_rate s.bandwidth,
            Event.sdrStart, Event.rrcReset, Event.phyReset, Event.sleep 1])
    else
      -- all other subframes are MBSFN subframes
      let idx := s.mb_idx
      let r2 :=
        if !s.restart && env.frame_ok then
          if env.mcch_configured && env.is_mbsfn then
            let cfgEv := if !env.worker_configured then [Event.configureWorker idx] else []
            ({ s with tti := tti },
              [Event.readRestart s.restart, Event.selectWorker idx,
                Event.getNextFrame true] ++ cfgEv ++ [Event.pushMbsfn idx tti])
          else
            ({ s with tti := tti },
              [Event.readRestart s.restart, Event.selectWorker idx,
                Event.getNextFrame true, Event.unlockWorker idx])
        else
          let pre := if s.restart then [Event.readRestart true]
            else [Event.readRestart false, Event.selectWorker idx,
              Event.getNextFrame false]
          ({ s with tti := tti, sample_rate := cfg.search_sample_rate, state := RxState.searching },
            pre ++ [Event.sdrStop,
              Event.sdrTune s.frequency cfg.search_sample_rate s.bandwidth,
              Event.sdrStart, Event.sleep 1, Event.rrcReset, Event.phyReset])
      ({ r2.1 with mb_idx := (idx + 1) % cfg.thread_cnt }, r2.2)
  let tick := (r.1.tick + 1) % 2 ^ 32
  ({ r.1 with tick := tick },
    r.2 ++ if tick % cfg.measurement_interval = 0 then [Event.snapshot] else [])

/-- The inner loop of the syncing state,
`while (!sfn_sync && max_frames-- > 0) { sfn_sync = phy.synchronize_subframe(); }`,
with `max_frames` an `unsigned` (post-decrement wraps modulo `2 ^ 32`).
Arguments: fuel, index of the next synchronization attempt, current
`max_frames`, current `sfn_sync`.  Returns final `max_frames`, final
`sfn_sync`, and the number of attempts made. -/
def syncLoopGo (attempt : Nat → Bool) : Nat → Nat → Nat → Bool → Nat × Bool × Nat
  | 0, i, mf, sync => (mf, sync, i)
  | fuel + 1, i, mf, sync =>
    if sync then (mf, sync, i)
    else
      let mf2 := (mf + (2 ^ 32 - 1)) % 2 ^ 32
      if 0 < mf then syncLoopGo attempt fuel (i + 1) mf2 (attempt i)
      else (mf2, sync, i)

/-- Entry point of the sync loop: `max_frames = 200`, `sfn_sync = false`.
210 units of fuel are enough for the at most 201 condition checks. -/
def syncLoop (attempt : Nat → Bool) : Nat × Bool × Nat :=
  syncLoopGo attempt 210 0 200 false

/-- One iteration of the outer loop in the syncing state
(main.cpp lines 526-564).  `attempt i` is the result of the i-th
`phy.synchronize_subframe()` call, `phy_tti` the TTI reported by the Phy
on success.  On success the transition into the processing block also
re-initializes the block-local dispatch cursor (`int mb_idx = 0`). -/
def syncingStep (attempt : Nat → Bool) (phy_tti : Nat) (s : LoopState) :
    LoopState × List Event :=
  let r := syncLoop attempt
  let mf := r.1
  let sync := r.2.1
  let n := r.2.2
  let evs := (List.range n).map (fun i => Event.syncAttempt (attempt i))
  if mf = 0 && !sync then
    ({ s with state := RxState.searching }, evs ++ [Event.sleep 1])
  else if sync then
    ({ s with state := RxState.processing, tti := phy_tti, mb_idx := 0 },
      evs ++ [Event.setCellCas, Event.unlockAllWorkers, Event.rrcReset,
        Event.enableSampleWriting])
  else
    (s, evs)

/-- One iteration of the outer loop in the searching state
(main.cpp lines 480-525). -/
def searchingStep (cfg : LoopConfig) (env : SearchEnv) (s : LoopState) :
    LoopState × List Event :=
  let r1 :=
    if s.restart then
      ({ s with sample_rate := cfg.search_sample_rate },
        [Event.readRestart true, Event.sdrStop,
          Event.sdrTune s.frequency cfg.search_sample_rate s.bandwidth,
          Event.sdrStart])
    else (s, [Event.readRestart false])
  let s2 : LoopState := { r1.1 with restart := false }
  let ev2 := r1.2 ++ [Event.disableSampleWriting, Event.sdrClearBuffer,
    Event.cellSearch env.cell_found]
  if env.cell_found then
    let prb := env.nr_prb
    let s3 : LoopState := { s2 with cas_nof_prb := prb, mbsfn_nof_prb := prb }
    if cfg.sample_file_mode then
      ({ s3 with mbsfn_nof_prb := cfg.file_bw * 5, state := RxState.syncing },
        ev2 ++ [Event.setNofMbsfnPrb (cfg.file_bw * 5), Event.setCellPhy])
    else
      let new_srate := cfg.srate_of_prb prb
      let bw := bwFromPrb prb
      ({ s3 with bandwidth := bw, state := RxState.syncing },
        ev2 ++ [Event.sdrStop, Event.sdrTune s3.frequency new_srate bw,
          Event.sdrStart])
  else
    (s2, ev2 ++ [Event.sleep 1])

/-- Oracle inputs for one iteration of the outer `for (;;)` loop. -/
structure StepEnv where
  search : SearchEnv
  attempt : Nat → Bool
  phy_tti : Nat
  sub : SubframeEnv

/-- One iteration of the outer `for (;;)` loop, dispatching on the
current state.  In the processing state one step is one subframe
iteration of the inner `while (state == processing)` loop. -/
def loopStep (cfg : LoopConfig) (env : StepEnv) (s : LoopState) :
    LoopState × List Event :=
  match s.state with
  | RxState.searching => searchingStep cfg env.search s
  | RxState.syncing => syncingStep env.attempt env.phy_tti s
  | RxState.processing => processSubframe cfg env.sub s

/-! ## Startup (everything before the main loop) -/

/-- Possible outcomes of startup: a call to `exit(code)`, an
out-of-bounds `std::vector` subscript (undefined behaviour in the
source, surfaced here as a distinguished outcome naming the index), or
reaching the main loop. -/
inductive StartupOutcome where
  | exited (code : Nat)
  | oob (idx : Nat)
  | loopEntered
deriving DecidableEq, Repr

/-- Oracle results of the external calls made during startup:
`cfg.readFile` in `main`, the device-listing flag, `sdr.init`, the
`readFile` inside `parseFrequenciesFromConfig`, the per-entry
`lookupValue` results (`none` = unparsable entry), the `sdr.tune`
results per candidate index, and the processor `init` results. -/
structure StartupEnv where
  config_read_ok : Bool
  list_devices : Bool
  sdr_init_ok : Bool
  freq_cfg_read_ok : Bool
  freq_entries : List (Option Nat)
  tune_ok : Nat → Bool
  cas_init_ok : Bool
  mbsfn_init_ok : Bool

/-- The entry loop of `parseFrequenciesFromConfig`: each entry must
parse (`lookupValue`), otherwise the process exits with status 1. -/
def parseEntries : List (Option Nat) → Except Nat (List Nat)
  | [] => Except.ok []
  | Option.none :: _ => Except.error 1
  | Option.some v :: rest =>
    match parseEntries rest with
    | Except.error c => Except.error c
    | Except.ok vs => Except.ok (v :: vs)

/-- Startup as written in `main` (main.cpp lines 250-466): config read,
optional device listing, SDR init, frequency-list parsing, then the
unconditional subscripts `frequencies[0]` and `frequencies[1]` with
their range checks and (result-ignored) tune attempts, then the CAS and
MBSFN processor initialization.  The tune calls themselves are recorded
by `startupTunes`; their success or failure influences only the log
output, hence does not appear here. -/
def startup (env : StartupEnv) : StartupOutcome :=
  if !env.config_read_ok then StartupOutcome.exited 1
  else if env.list_devices then StartupOutcome.exited 0
  else if !env.sdr_init_ok then StartupOutcome.exited 1
  else if !env.freq_cfg_read_ok then StartupOutcome.exited 1
  else
    match parseEntries env.freq_entries with
    | Except.error c => StartupOutcome.exited c
    | Except.ok freqs =>
      match freqs.get? 0 with
      | Option.none => StartupOutcome.oob 0
      | Option.some f0 =>
        if f0 ≤ UINT_MAX then
          match freqs.get? 1 with
          | Option.none => StartupOutcome.oob 1
          | Option.some f1 =>
            if f1 ≤ UINT_MAX then
              if !env.cas_init_ok then StartupOutcome.exited 1
              else if !env.mbsfn_init_ok then StartupOutcome.exited 1
              else StartupOutcome.loopEntered
            else StartupOutcome.exited 1
        else StartupOutcome.exited 1

/-- The tune attempts startup makes, with their (only-logged) results:
`sdr.tune(frequencies[0], ...)` whenever `frequencies[0] ≤ UINT_MAX`,
then `sdr.tune(frequencies[1], ...)` whenever the first candidate was in
range and `frequencies[1] ≤ UINT_MAX`. -/
def startupTunes (env : StartupEnv) (freqs : List Nat) : List (Nat × Bool) :=
  match freqs.get? 0 with
  | Option.none => []
  | Option.some f0 =>
    if f0 ≤ UINT_MAX then
      (f0, env.tune_ok 0) ::
        (match freqs.get? 1 with
        | Option.none => []
        | Option.some f1 => if f1 ≤ UINT_MAX then [(f1, env.tune_ok 1)] else [])
    else []

/-! ## Derived runs and helper predicates -/

/-- Iterate the subframe body over a stream of per-subframe oracles. -/
def runProcessing (cfg : LoopConfig) (envs : Nat → SubframeEnv) (s : LoopState) :
    Nat → LoopState
  | 0 => s
  | n + 1 => (processSubframe cfg (envs n) (runProcessing cfg envs s n)).1

/-- Fold the subframe body over a list of per-subframe oracles. -/
def runSub (cfg : LoopConfig) : List SubframeEnv → LoopState → LoopState
  | [], s => s
  | e :: es, s => runSub cfg es (processSubframe cfg e s).1

/-- The dispatch-cursor value at each step of a run: the worker index
that iteration would hand a broadcast-channel frame to. -/
def cursorTrace (cfg : LoopConfig) : List SubframeEnv → LoopState → List Nat
  | [], _ => []
  | e :: es, s => s.mb_idx :: cursorTrace cfg es (processSubframe cfg e s).1

def isReadRestart : Event → Bool
  | Event.readRestart _ => true
  | _ => false

def isBwCheck : Event → Bool
  | Event.bwCheck _ _ => true
  | _ => false

def isSyncAttempt : Event → Bool
  | Event.syncAttempt _ => true
  | _ => false

def isGetNextFrame : Event → Bool
  | Event.getNextFrame _ => true
  | _ => false

/-- The recovery actions named by the failure-recovery path. -/
def isRecoveryEvent : Event → Bool
  | Event.sdrStop => true
  | Event.sdrStart => true
  | Event.sdrTune _ _ _ => true
  | Event.rrcReset => true
  | Event.phyReset => true
  | Event.sleep _ => true
  | _ => false

/-! ## Concrete instances used for witnesses and counterexamples -/

/-- A concrete configuration: defaults from the source
(`search_sample_rate 7680000`, 4 worker threads, measurement interval
5 s already converted to 5000 ticks), with a stand-in sampling-rate
table for the external `srsran_sampling_freq_hz`. -/
def cfg0 : LoopConfig where
  search_sample_rate := 7680000
  thread_cnt := 4
  measurement_interval := 5000
  srate_of_prb := fun prb => prb * 192000
  sample_file_mode := false
  file_bw := 0

/-- A processing-state loop state with the source's initial values of
the globals. -/
def stProc : LoopState where
  state := RxState.processing
  tti := 0
  tick := 0
  mb_idx := 0
  sample_rate := 7680000
  frequency := 667000000
  bandwidth := 10000000
  mbsfn_nof_prb := 25
  cas_nof_prb := 25
  restart := false

/-- A benign MBSFN subframe oracle: frame received, schedule not yet
known, so the samples are discarded; the loop stays in processing. -/
def subEnvDiscard : SubframeEnv where
  is_cas := false
  frame_ok := true
  nof_mbsfn_prb := 25
  mcch_configured := false
  is_mbsfn := false
  worker_configured := false

/-- Snapshot firing predicate for the concrete telemetry run: does the
n-th subframe iteration (0-indexed), starting from `stProc` (tick 0) on
the benign oracle stream, emit a measurement snapshot? -/
def firesAt (n : Nat) : Prop :=
  Event.snapshot ∈
    (processSubframe cfg0 subEnvDiscard
      (runProcessing cfg0 (fun _ => subEnvDiscard) stProc n)).2

/-- Frame index from the TTI: `unsigned sfn = tti / 10` in the loop. -/
def sfnOf (tti : Nat) : Nat := tti / 10

/-- Subframe index from the TTI.  Modelled from the spec: the subframe
classifiers that consume it live in the external Phy, not in this source
file; the spec data model defines the subframe index as `tti mod 10`. -/
def subframeOf (tti : Nat) : Nat := tti % 10

/-- `stProc` placed in the syncing state. -/
def stSync : LoopState := { stProc with state := RxState.syncing }

/-- `stProc` placed in the searching state. -/
def stSearch : LoopState := { stProc with state := RxState.searching }

/-- A CAS subframe with successful frame retrieval and matching widths. -/
def envCasOk : SubframeEnv := { subEnvDiscard with is_cas := true }

/-- A CAS subframe on which frame retrieval fails. -/
def envCasFail : SubframeEnv := { subEnvDiscard with is_cas := true, frame_ok := false }

/-- A CAS subframe reporting a wider MBSFN portion (50 PRB) than the
tracked 25 PRB. -/
def envCasMismatch : SubframeEnv := { subEnvDiscard with is_cas := true, nof_mbsfn_prb := 50 }

/-- An MBSFN subframe on which frame retrieval fails. -/
def envMbsfnFail : SubframeEnv := { subEnvDiscard with frame_ok := false }

/-- Five consecutive broadcast-channel subframes. -/
def envs5 : List SubframeEnv :=
  [subEnvDiscard, subEnvDiscard, subEnvDiscard, subEnvDiscard, subEnvDiscard]

/-- A concrete outer-loop oracle. -/
def stepEnv0 : StepEnv where
  search := { cell_found := false, nr_prb := 25 }
  attempt := fun _ => false
  phy_tti := 37
  sub := subEnvDiscard

/-- A startup oracle on which everything succeeds except that both tune
attempts fail; two in-range frequency candidates are configured. -/
def envTunesFail : StartupEnv where
  config_read_ok := true
  list_devices := false
  sdr_init_ok := true
  freq_cfg_read_ok := true
  freq_entries := [Option.some 700000000, Option.some 800000000]
  tune_ok := fun _ => false
  cas_init_ok := true
  mbsfn_init_ok := true

/-- A startup oracle whose configuration holds a single frequency entry
whose value exceeds `UINT_MAX`. -/
def envHugeSingle : StartupEnv :=
  { envTunesFail with freq_entries := [Option.some (2 ^ 32)], tune_ok := fun _ => true }

/-- A startup oracle whose configuration holds a single in-range
frequency entry. -/
def envOneSmall : StartupEnv :=
  { envTunesFail with freq_entries := [Option.some 700000000], tune_ok := fun _ => true }

/-- A startup oracle on which the configuration file cannot be read. -/
def envBadConfig : StartupEnv := { envTunesFail with config_read_ok := false }

/-- `stProc` at the last TTI of the super-frame. -/
def stMaxTti : LoopState := { stProc with tti := 10239 }

/-! ## Helper lemmas -/

theorem processSubframe_tti (cfg : LoopConfig) (env : SubframeEnv) (s : LoopState) :
    (processSubframe cfg env s).1.tti = (s.tti + 1) % 10240 := by
  simp only [processSubframe]
  split <;> (try split) <;> (try split) <;> (try split) <;> simp

theorem processSubframe_tick (cfg : LoopConfig) (env : SubframeEnv) (s : LoopState) :
    (processSubframe cfg env s).1.tick = (s.tick + 1) % 2 ^ 32 := by
  simp only [processSubframe]
  split <;> (try split) <;> (try split) <;> (try split) <;> simp

theorem processSubframe_mb_idx_mbsfn (cfg : LoopConfig) (env : SubframeEnv) (s : LoopState)
    (h : env.is_cas = false) :
    (processSubframe cfg env s).1.mb_idx = (s.mb_idx + 1) % cfg.thread_cnt := by
  simp only [processSubframe, h]
  split <;> (try split) <;> (try split) <;> simp_all

/-- Closed form of the benign discard run: the TTI, tick and cursor
counters advance by one (modulo their respective ranges) per subframe
and nothing else changes, so the loop genuinely stays in processing. -/
theorem run_discard (n : Nat) :
    runProcessing cfg0 (fun _ => subEnvDiscard) stProc n =
      { stProc with tti := n % 10240, tick := n % 2 ^ 32, mb_idx := n % 4 } := by
  induction n with
  | zero => rfl
  | succ n ih =>
    simp only [runProcessing, ih]
    simp [processSubframe, cfg0, subEnvDiscard, stProc, Nat.mod_add_mod]

/-- Trace of one discard iteration: a snapshot is appended exactly when
the incremented tick is a multiple of the 5000-tick interval. -/
theorem discard_trace (s : LoopState) (h : s.restart = false) :
    (processSubframe cfg0 subEnvDiscard s).2 =
      [Event.readRestart false, Event.selectWorker s.mb_idx, Event.getNextFrame true,
        Event.unlockWorker s.mb_idx] ++
      (if ((s.tick + 1) % 2 ^ 32) % 5000 = 0 then [Event.snapshot] else []) := by
  simp [processSubframe, cfg0, subEnvDiscard, h]

/-- The n-th iteration of the concrete telemetry run emits a snapshot
iff the wrapped tick value `(n + 1) % 2 ^ 32` is a multiple of 5000. -/
theorem fires_iff (n : Nat) : firesAt n ↔ ((n + 1) % 2 ^ 32) % 5000 = 0 := by
  rw [firesAt, run_discard n, discard_trace _ rfl]
  simp [Nat.mod_add_mod]

theorem parseEntries_error_code (l : List (Option Nat)) :
    ∀ c, parseEntries l = Except.error c → c = 1 := by
  induction l with
  | nil => intro c h; simp [parseEntries] at h
  | cons a rest ih =>
    intro c h
    cases a with
    | none =>
      simp only [parseEntries, Except.error.injEq] at h
      omega
    | some v =>
      simp only [parseEntries] at h
      cases hp : parseEntries rest with
      | error d =>
        rw [hp] at h
        simp only [Except.error.injEq] at h
        rw [← h]
        exact ih d hp
      | ok vs =>
        rw [hp] at h
        simp at h

theorem searching_restart_trace (cfg : LoopConfig) (env : SearchEnv) (s : LoopState) :
    (searchingStep cfg env s).2.head? = some (Event.readRestart s.restart) ∧
    (searchingStep cfg env s).2.countP isReadRestart = 1 := by
  cases hr : s.restart <;> cases hc : env.cell_found <;> cases hm : cfg.sample_file_mode <;>
    simp [searchingStep, hr, hc, hm, isReadRestart, List.countP_cons, List.countP_append]

theorem syncing_restart_trace (attempt : Nat → Bool) (phy_tti : Nat) (s : LoopState) :
    (syncingStep attempt phy_tti s).2.countP isReadRestart = 0 := by
  rw [List.countP_eq_zero]
  intro a ha
  simp only [syncingStep] at ha
  have key : ∀ l : List Event, (∀ x ∈ l, isReadRestart x = false) →
      a ∈ ((List.range (syncLoop attempt).2.2).map
        (fun i => Event.syncAttempt (attempt i))) ++ l →
      ¬ isReadRestart a = true := by
    intro l hl hmem
    rcases List.mem_append.mp hmem with h1 | h2
    · obtain ⟨i, _, rfl⟩ := List.mem_map.mp h1
      simp [isReadRestart]
    · simp [hl a h2]
  split at ha
  · exact key _ (by decide) ha
  · split at ha
    · exact key _ (by decide) ha
    · exact key [] (by simp) (by simpa using ha)

theorem processSubframe_restart_trace (cfg : LoopConfig) (env : SubframeEnv) (s : LoopState) :
    (processSubframe cfg env s).2.head? = some (Event.readRestart s.restart) ∧
    (processSubframe cfg env s).2.countP isReadRestart = 1 := by
  rcases env with ⟨ic, fo, prb, mc, im, wc⟩
  cases ic <;> cases fo <;> cases hr : s.restart <;> cases mc <;> cases im <;> cases wc <;>
    simp [processSubframe, hr, isReadRestart, List.countP_cons, List.countP_append] <;>
    (try split) <;> (try split) <;>
    simp [List.countP_cons, List.countP_nil, isReadRestart]

/-! ## Claim theorems -/

set_option maxRecDepth 10000 in
/-- Claim C1 (code bug in the source): with every one of the 200
synchronization attempts failing, the syncing step makes exactly 200
attempts, but the unsigned post-decrement of `max_frames` wraps it to
`2 ^ 32 - 1` on loop exit, so the `max_frames == 0` guard in front of
`state = searching` is false and the state machine REMAINS in Syncing —
contradicting the claim, the spec, and the source's own comment that it
goes back to the search state. -/
theorem syncing_attempt_budget_exhaustion_behaviour :
    (syncingStep (fun _ => false) 0 stSync).1.state = RxState.syncing ∧
    (syncingStep (fun _ => false) 0 stSync).2.countP isSyncAttempt = 200 ∧
    (syncLoop (fun _ => false)).1 = 2 ^ 32 - 1 := by
  refine ⟨?_, ?_, ?_⟩ <;> decide

/-- Claim C2 (amended): on a dedicated-channel (CAS) subframe during
Processing, the broadcast-channel-width comparison against the tracked
value is performed exactly when no retune request is pending and frame
retrieval succeeded (the case in which a decode task was submitted);
on retrieval failure the recovery path runs instead and no width check
happens. -/
theorem cas_bw_check_iff_frame_ok (cfg : LoopConfig) (env : SubframeEnv) (s : LoopState)
    (h : env.is_cas = true) :
    ((processSubframe cfg env s).2.any isBwCheck) = true ↔
      (s.restart = false ∧ env.frame_ok = true) := by
  cases hr : s.restart <;> cases hf : env.frame_ok <;>
    simp [processSubframe, h, hr, hf, isBwCheck] <;> (try split) <;> simp [isBwCheck]

/-- Claim C2 witness: on a successful CAS subframe the width check is
performed. -/
theorem cas_bw_check_iff_frame_ok_witness :
    ((processSubframe cfg0 envCasOk stProc).2.any isBwCheck) = true :=
  (cas_bw_check_iff_frame_ok cfg0 envCasOk stProc rfl).mpr ⟨rfl, rfl⟩

/-- Claim C2 counterexample: a CAS subframe whose frame retrieval fails
performs no bandwidth-mismatch check at all, refuting the claim that the
check happens whether or not frame retrieval succeeded. -/
theorem cas_bw_check_skipped_on_retrieval_failure :
    envCasFail.is_cas = true ∧
    ((processSubframe cfg0 envCasFail stProc).2.any isBwCheck) = false := by
  exact ⟨rfl, rfl⟩

/-- Claim C3: every frame-retrieval failure during Processing — on a
CAS subframe or on an MBSFN subframe, and from any loop state, hence
regardless of how many consecutive failures occurred before — performs
the same set of recovery actions (stop the radio, retune to the search
sample rate, restart, reset the RRC and the Phy, sleep 1 second; the
two call sites order the reset/sleep tail slightly differently, whence
permutation equality) and leaves the machine in Searching with
`sample_rate` reset to the acquisition rate. -/
theorem processing_failure_uniform_recovery (cfg : LoopConfig) (env : SubframeEnv)
    (s : LoopState) (hr : s.restart = false) (hf : env.frame_ok = false) :
    (processSubframe cfg env s).1.state = RxState.searching ∧
    (processSubframe cfg env s).1.sample_rate = cfg.search_sample_rate ∧
    ((processSubframe cfg env s).2.filter isRecoveryEvent).Perm
      [Event.sdrStop, Event.sdrTune s.frequency cfg.search_sample_rate s.bandwidth,
        Event.sdrStart, Event.rrcReset, Event.phyReset, Event.sleep 1] := by
  cases hc : env.is_cas <;>
    simp [processSubframe, hr, hf, hc, isRecoveryEvent, List.filter_append] <;>
    (try split) <;>
    simp [List.filter, isRecoveryEvent] <;>
    (try decide)

/-- Claim C3 witness: concrete retrieval failures on a CAS and on an
MBSFN subframe both land in Searching. -/
theorem processing_failure_uniform_recovery_witness :
    (processSubframe cfg0 envCasFail stProc).1.state = RxState.searching ∧
    (processSubframe cfg0 envMbsfnFail stProc).1.state = RxState.searching :=
  ⟨(processing_failure_uniform_recovery cfg0 envCasFail stProc rfl rfl).1,
    (processing_failure_uniform_recovery cfg0 envMbsfnFail stProc rfl rfl).1⟩

/-- Claim C4: when a successfully retrieved CAS subframe reports an
MBSFN width different from the tracked value, the loop performs exactly
one reconfiguration cycle — stop, retune to the rate for the new width
with filter bandwidth `prb * 200000 * 1.2`, push the cell geometry to
the Phy and to the CAS processor, restart — and transitions to Syncing
(so in particular not to Searching and not staying in Processing).  The
trace equality pins down the exact actions and their order. -/
theorem cas_bandwidth_extension_reconfig (cfg : LoopConfig) (env : SubframeEnv)
    (s : LoopState) (hc : env.is_cas = true) (hr : s.restart = false)
    (hf : env.frame_ok = true) (hm : env.nof_mbsfn_prb ≠ s.mbsfn_nof_prb) :
    (processSubframe cfg env s).1.state = RxState.syncing ∧
    (processSubframe cfg env s).1.mbsfn_nof_prb = env.nof_mbsfn_prb ∧
    (processSubframe cfg env s).1.bandwidth = bwFromPrb env.nof_mbsfn_prb ∧
    (processSubframe cfg env s).2 =
      [Event.readRestart false, Event.getNextFrame true,
        Event.pushCas ((s.tti + 1) % 10240),
        Event.bwCheck env.nof_mbsfn_prb s.mbsfn_nof_prb,
        Event.sdrStop,
        Event.sdrTune s.frequency (cfg.srate_of_prb env.nof_mbsfn_prb)
          (bwFromPrb env.nof_mbsfn_prb),
        Event.setCellPhy, Event.setCellCas, Event.sdrStart] ++
      (if ((s.tick + 1) % 2 ^ 32) % cfg.measurement_interval = 0
        then [Event.snapshot] else []) := by
  simp [processSubframe, hc, hr, hf, hm]

/-- Claim C4 witness: a CAS subframe reporting 50 PRB against tracked
25 PRB moves the machine to Syncing with bandwidth 12 MHz. -/
theorem cas_bandwidth_extension_reconfig_witness :
    (processSubframe cfg0 envCasMismatch stProc).1.state = RxState.syncing ∧
    (processSubframe cfg0 envCasMismatch stProc).1.bandwidth = 12000000 :=
  ⟨(cas_bandwidth_extension_reconfig cfg0 envCasMismatch stProc rfl rfl rfl
      (by decide)).1,
    (cas_bandwidth_extension_reconfig cfg0 envCasMismatch stProc rfl rfl rfl
      (by decide)).2.2.1⟩

/-- Claim C5 (amended): startup's outcome is entirely independent of
whether the tune calls to the configured frequency candidates succeed
(their results are only logged), and — device listing aside — every
`exit` before the main loop carries the non-zero status 1.  The main
loop itself is modelled by total step functions because no statement in
the loop body calls `exit`. -/
theorem startup_exit_status_policy :
    (∀ (env : StartupEnv) (t1 t2 : Nat → Bool),
      startup { env with tune_ok := t1 } = startup { env with tune_ok := t2 }) ∧
    (∀ (env : StartupEnv) (c : Nat), env.list_devices = false →
      startup env = StartupOutcome.exited c → c = 1) := by
  constructor
  · intro env t1 t2
    rcases env with ⟨a, b, cc, d, e, t, f, g⟩
    rfl
  · intro env c hld h
    simp only [startup] at h
    repeat' split at h
    all_goals
      first
        | (cases h <;> rfl)
        | (injection h with h2
           first
             | omega
             | exact h2.symm.trans (parseEntries_error_code _ _ (by assumption)))
        | simp_all

/-- Claim C5 witness: an unreadable configuration exits with status 1,
and flipping every tune result leaves the startup outcome unchanged. -/
theorem startup_exit_status_policy_witness :
    startup { envTunesFail with tune_ok := fun _ => true } = startup envTunesFail ∧
    (1 : Nat) = 1 :=
  ⟨startup_exit_status_policy.1 envTunesFail (fun _ => true) (fun _ => false),
    startup_exit_status_policy.2 envBadConfig 1 rfl rfl⟩

/-- Claim C5 counterexample: with two in-range candidates and BOTH tune
calls failing, startup still reaches the main loop — the process does
not terminate, refuting the claim that failure to tune to any
configured candidate frequency exits with a non-zero status. -/
theorem startup_tune_failures_reach_loop :
    (envTunesFail.tune_ok 0 = false ∧ envTunesFail.tune_ok 1 = false) ∧
    startup envTunesFail = StartupOutcome.loopEntered :=
  ⟨⟨rfl, rfl⟩, rfl⟩

/-- Claim C6: over any sequence of consecutive broadcast-channel
(non-CAS) subframes, the dispatch cursor hands the frames to workers
`c, (c+1) % N, (c+2) % N, ...` and advances by exactly one modulo N per
subframe — regardless of the retrieval result, the pending-restart
flag, or schedule availability, all of which the per-step oracle list
ranges over freely. -/
theorem dispatch_cursor_round_robin (cfg : LoopConfig) (envs : List SubframeEnv)
    (s : LoopState) (hall : ∀ e ∈ envs, e.is_cas = false)
    (hlt : s.mb_idx < cfg.thread_cnt) :
    cursorTrace cfg envs s =
      (List.range envs.length).map (fun i => (s.mb_idx + i) % cfg.thread_cnt) ∧
    (runSub cfg envs s).mb_idx = (s.mb_idx + envs.length) % cfg.thread_cnt := by
  induction envs generalizing s with
  | nil => simp [cursorTrace, runSub, Nat.mod_eq_of_lt hlt]
  | cons e es ih =>
    have hN : 0 < cfg.thread_cnt := Nat.lt_of_le_of_lt (Nat.zero_le _) hlt
    have he : e.is_cas = false := hall e (List.mem_cons_self e es)
    have hes : ∀ x ∈ es, x.is_cas = false := fun x hx => hall x (List.mem_cons_of_mem e hx)
    have hstep : (processSubframe cfg e s).1.mb_idx = (s.mb_idx + 1) % cfg.thread_cnt :=
      processSubframe_mb_idx_mbsfn cfg e s he
    have hlt2 : (processSubframe cfg e s).1.mb_idx < cfg.thread_cnt := by
      rw [hstep]; exact Nat.mod_lt _ hN
    obtain ⟨ih1, ih2⟩ := ih (processSubframe cfg e s).1 hes hlt2
    constructor
    · simp only [cursorTrace, ih1, hstep, List.length_cons, List.range_succ_eq_map,
        List.map_cons, List.map_map]
      congr 1
      · exact (Nat.mod_eq_of_lt hlt).symm
      · apply List.map_congr_left
        intro i _
        simp only [Function.comp_apply, Nat.succ_eq_add_one, Nat.mod_add_mod]
        congr 1
        omega
    · simp only [runSub, ih2, hstep, List.length_cons, Nat.mod_add_mod]
      congr 1
      omega

/-- Claim C6 witness: five broadcast subframes with 4 workers starting
at cursor 0 are assigned in round-robin order. -/
theorem dispatch_cursor_round_robin_witness :
    cursorTrace cfg0 envs5 stProc =
      (List.range envs5.length).map (fun i => (stProc.mb_idx + i) % cfg0.thread_cnt) ∧
    (runSub cfg0 envs5 stProc).mb_idx = (stProc.mb_idx + envs5.length) % cfg0.thread_cnt :=
  dispatch_cursor_round_robin cfg0 envs5 stProc (by decide) (by decide)

/-- Claim C7: the TTI advances once per subframe modulo 10240
(`tti = (tti + 1) % 10240`), so 10239 advances to 0, and for every TTI
in range the frame index is `tti / 10` and the subframe index is
`tti % 10`. -/
theorem tti_advance_and_indices :
    (∀ (cfg : LoopConfig) (env : SubframeEnv) (s : LoopState),
      (processSubframe cfg env s).1.tti = (s.tti + 1) % 10240) ∧
    (∀ (cfg : LoopConfig) (env : SubframeEnv) (s : LoopState), s.tti = 10239 →
      (processSubframe cfg env s).1.tti = 0) ∧
    (∀ t : Nat, t < 10240 → sfnOf t = t / 10 ∧ subframeOf t = t % 10) := by
  refine ⟨processSubframe_tti, ?_, ?_⟩
  · intro cfg env s h
    rw [processSubframe_tti, h]
  · intro t _
    exact ⟨rfl, rfl⟩

/-- Claim C7 witness: advancing from TTI 10239 yields 0; frame index
1023 and subframe index 9 at TTI 10239. -/
theorem tti_advance_and_indices_witness :
    (processSubframe cfg0 subEnvDiscard stMaxTti).1.tti = 0 ∧
    sfnOf 10239 = 1023 ∧ subframeOf 10239 = 9 :=
  ⟨tti_advance_and_indices.2.1 cfg0 subEnvDiscard stMaxTti rfl,
    (tti_advance_and_indices.2.2 10239 (by decide)).1,
    (tti_advance_and_indices.2.2 10239 (by decide)).2⟩

/-- Claim C8: the shared restart flag is read exactly once per
Searching iteration (as the very first observable action), never during
a Syncing iteration, and exactly once per Processing subframe iteration
— again as the very first observable action, hence before frame
retrieval and before any decode dispatch. -/
theorem restart_flag_checkpoints (cfg : LoopConfig) (env : StepEnv) (s : LoopState) :
    (s.state = RxState.searching →
      (loopStep cfg env s).2.head? = some (Event.readRestart s.restart) ∧
      (loopStep cfg env s).2.countP isReadRestart = 1) ∧
    (s.state = RxState.syncing →
      (loopStep cfg env s).2.countP isReadRestart = 0) ∧
    (s.state = RxState.processing →
      (loopStep cfg env s).2.head? = some (Event.readRestart s.restart) ∧
      (loopStep cfg env s).2.countP isReadRestart = 1) := by
  refine ⟨fun h => ?_, fun h => ?_, fun h => ?_⟩
  · simp only [loopStep, h]
    exact searching_restart_trace cfg env.search s
  · simp only [loopStep, h]
    exact syncing_restart_trace env.attempt env.phy_tti s
  · simp only [loopStep, h]
    exact processSubframe_restart_trace cfg env.sub s

/-- Claim C8 witness: concrete steps in each of the three states. -/
theorem restart_flag_checkpoints_witness :
    (loopStep cfg0 stepEnv0 stSearch).2.head? = some (Event.readRestart false) ∧
    (loopStep cfg0 stepEnv0 stSync).2.countP isReadRestart = 0 ∧
    (loopStep cfg0 stepEnv0 stProc).2.countP isReadRestart = 1 :=
  ⟨((restart_flag_checkpoints cfg0 stepEnv0 stSearch).1 rfl).1,
    (restart_flag_checkpoints cfg0 stepEnv0 stSync).2.1 rfl,
    ((restart_flag_checkpoints cfg0 stepEnv0 stProc).2.2 rfl).2⟩

/-- Claim C9 (amended): the tick counter is a `uint32_t`, incremented
once per subframe iteration modulo `2 ^ 32` on every path (decoded,
discarded or failed), and on the concrete 5-second-interval run a
snapshot fires after iteration n exactly when the wrapped counter value
`(n + 1) % 2 ^ 32` is a multiple of 5000: the first snapshot fires at
tick 5000 and snapshots recur every 5000 ticks until the counter wraps
at `2 ^ 32` increments, where one inter-snapshot gap is `2 ^ 32 % 5000 = 2296`
ticks instead of 5000. -/
theorem telemetry_tick_cadence :
    (∀ (cfg : LoopConfig) (env : SubframeEnv) (s : LoopState),
      (processSubframe cfg env s).1.tick = (s.tick + 1) % 2 ^ 32) ∧
    (∀ n : Nat, firesAt n ↔ ((n + 1) % 2 ^ 32) % 5000 = 0) :=
  ⟨processSubframe_tick, fires_iff⟩

/-- Claim C9 counterexample: a snapshot fires at the `2 ^ 32`-th tick
increment (where the 32-bit counter has wrapped to 0) although `2 ^ 32`
is not a multiple of 5000 — so it is not the case that after the first
snapshot at tick 5000 every subsequent snapshot fires exactly every
5000 ticks. -/
theorem telemetry_cadence_breaks_at_wrap :
    firesAt (2 ^ 32 - 1) ∧ 2 ^ 32 % 5000 ≠ 0 := by
  constructor
  · rw [fires_iff]
    decide
  · decide

/-- Claim C10 (amended): startup subscripts `frequencies[0]` with no
length check, and subscripts `frequencies[1]` (again with no length
check) whenever `frequencies[0] ≤ UINT_MAX`; reaching the main loop
therefore requires at least two configured candidates.  An empty
candidate list faults (out of bounds) at index 0; a one-element list
faults at index 1 when its entry is ≤ UINT_MAX, and otherwise exits
with status 1 before index 1 is ever read. -/
theorem startup_frequency_indexing (env : StartupEnv) (freqs : List Nat)
    (h1 : env.config_read_ok = true) (h2 : env.list_devices = false)
    (h3 : env.sdr_init_ok = true) (h4 : env.freq_cfg_read_ok = true)
    (hp : parseEntries env.freq_entries = Except.ok freqs) :
    (freqs = [] → startup env = StartupOutcome.oob 0) ∧
    (∀ f, freqs = [f] → f ≤ UINT_MAX → startup env = StartupOutcome.oob 1) ∧
    (∀ f, freqs = [f] → UINT_MAX < f → startup env = StartupOutcome.exited 1) ∧
    (startup env = StartupOutcome.loopEntered → 2 ≤ freqs.length) := by
  refine ⟨?_, ?_, ?_, ?_⟩
  · rintro rfl
    simp [startup, h1, h2, h3, h4, hp]
  · rintro f rfl hle
    simp [startup, h1, h2, h3, h4, hp, hle]
  · rintro f rfl hgt
    simp [startup, h1, h2, h3, h4, hp, Nat.not_le.mpr hgt]
  · intro hloop
    rcases freqs with _ | ⟨f, _ | ⟨g, t⟩⟩
    · simp [startup, h1, h2, h3, h4, hp] at hloop
    · by_cases hle : f ≤ UINT_MAX <;>
        simp [startup, h1, h2, h3, h4, hp, hle] at hloop
    · simp [List.length_cons]

/-- Claim C10 witness: a single in-range candidate faults out of bounds
at index 1. -/
theorem startup_frequency_indexing_witness :
    startup envOneSmall = StartupOutcome.oob 1 :=
  (startup_frequency_indexing envOneSmall [700000000] rfl rfl rfl rfl
    rfl).2.1 700000000 rfl (by decide)

/-- Claim C10 counterexample: a configuration with a single entry whose
value exceeds `UINT_MAX` has fewer than two candidates yet performs no
out-of-bounds access — the process exits with status 1 after reading
only `frequencies[0]` — refuting the claim that for every configuration
with fewer than two entries the indexing is out of bounds. -/
theorem startup_single_huge_entry_exits :
    envHugeSingle.freq_entries.length = 1 ∧
    startup envHugeSingle = StartupOutcome.exited 1 :=
  ⟨rfl, rfl⟩

end MbmsModem
